import Mathlib

/-!
Verification of the SCD30 I2C sensor driver (sens1).

The driver is shallowly embedded: the Arduino Wire (TwoWire) transport is
modelled as a scripted environment (`BusState`) holding the acknowledgement
result of each addressed write transaction and the byte buffer supplied by
each read request, together with a log of every write transaction put on the
wire.  The driver class state (the three cached measurement floats) is
modelled by `SCD30State`, whose fields hold the raw 32-bit patterns of the
floats, exactly as the `memcpy` calls in `readMeasurement` treat them.
IEEE-754 binary32 interpretation of a bit pattern is made explicit by
`f32ToRat`; float arithmetic in the accessors is modelled exactly over ℚ.
-/

namespace SCD30

/-! ### Command constants (from the header `#define` list) -/

def SCD30_I2C_ADDRESS : ℕ := 0x61

def SCD30_START_CONTINUOUS_MEASUREMENT : ℕ := 0x0010

def SCD30_STOP_CONTINUOUS_MEASUREMENT : ℕ := 0x0104

def SCD30_SET_MEASUREMENT_INTERVAL : ℕ := 0x4600

def SCD30_GET_READY_STATUS : ℕ := 0x0202

def SCD30_READ_MEASUREMENT : ℕ := 0x0300

def SCD30_SET_AUTOMATIC_SELFCALIBRATION : ℕ := 0x5306

def SCD30_SET_FORCED_RECALIBRATION : ℕ := 0x5204

def SCD30_SET_TEMPERATURE_OFFSET : ℕ := 0x5403

def SCD30_SET_ALTITUDE_COMPENSATION : ℕ := 0x5102

def SCD30_READ_FIRMWARE_VERSION : ℕ := 0xD100

def SCD30_SOFT_RESET : ℕ := 0xD304

/-! ### The bus transport model -/

/-- The Wire transport, modelled as a scripted environment.  `acks` lists, in
order, the status of each `endTransmission` call (`true` means the device
ACKed, i.e. `endTransmission` returned 0).  `reads` lists, in order, the
bytes that arrive for each `requestFrom` call.  `log` records every write
transaction actually put on the wire, as (device address, bytes written).
`begun` records whether `Wire.begin` has run. -/
structure BusState where
  begun : Bool
  acks : List Bool
  reads : List (List ℕ)
  log : List (ℕ × List ℕ)
deriving DecidableEq

/-- Wire.begin: join the bus as a master. -/
def wireBegin (bus : BusState) : BusState := { bus with begun := true }

/-- One complete addressed write transaction:
`beginTransmission(addr)` + `write(b)` for each byte + `endTransmission()`.
Returns whether the device ACKed (endTransmission returned 0). -/
def i2cWrite (bus : BusState) (addr : ℕ) (bytes : List ℕ) : Bool × BusState :=
  (bus.acks.headD false,
   { bus with acks := bus.acks.tail, log := bus.log ++ [(addr, bytes)] })

/-- `requestFrom(addr, n)`: the next scripted response buffer arrives,
truncated to the `n` bytes requested; each buffered byte is a uint8. -/
def i2cRequest (bus : BusState) (n : ℕ) : List ℕ × BusState :=
  (((bus.reads.headD []).take n).map (· % 256), { bus with reads := bus.reads.tail })

/-- High byte of a 16-bit word, as written by `Wire.write(w >> 8)`. -/
def hi8 (w : ℕ) : ℕ := w / 2 ^ 8 % 256

/-- Low byte of a 16-bit word, as written by `Wire.write(w & 0x00FF)`. -/
def lo8 (w : ℕ) : ℕ := w % 256

/-! ### The driver state -/

/-- The three cached measurement floats of the `SCD30` class.  Each field
holds the raw 32-bit pattern of the float (the `memcpy` calls in
`readMeasurement` copy uint32 bit patterns into the floats verbatim).
All fields start at pattern 0, which is the pattern of `0.0f`. -/
structure SCD30State where
  co2 : ℕ
  temperature : ℕ
  humidity : ℕ
deriving DecidableEq

/-- IEEE-754 binary32 interpretation of a 32-bit pattern, as an exact
rational.  `none` for the infinity/NaN patterns (exponent field 255).
Normal numbers decode to (sign) * 2^(e-127) * (1 + m/2^23), subnormals to
(sign) * 2^(-126) * (m/2^23). -/
def f32ToRat (bits : ℕ) : Option ℚ :=
  let sign : ℕ := bits / 2 ^ 31 % 2
  let expo : ℕ := bits / 2 ^ 23 % 2 ^ 8
  let mant : ℕ := bits % 2 ^ 23
  if expo = 255 then none
  else
    let mag : ℚ :=
      if expo = 0 then (mant : ℚ) / 2 ^ 149
      else ((2 ^ 23 + mant : ℕ) : ℚ) * 2 ^ expo / 2 ^ 150
    some (if sign = 1 then -mag else mag)

/-- The C++ conversion of a float value to `uint16_t` (as in `return co2;`
inside `getCO2`): truncation toward zero, defined when the truncated value
is representable in 16 bits (outside that range the conversion has
undefined behaviour, modelled as `none`). -/
def floatToUInt16 (q : ℚ) : Option ℕ :=
  if 0 ≤ q ∧ q < 65536 then some ⌊q⌋.toNat else none

/-! ### CRC-8 (SCD30::computeCRC8) -/

/-- One inner-loop iteration of `computeCRC8`: if the top bit of the 8-bit
register is set, shift left and XOR the generator 0x31, else just shift
left; the result is stored back into a uint8. -/
def crc8Round (crc : ℕ) : ℕ :=
  if crc &&& 0x80 ≠ 0 then ((crc <<< 1) ^^^ 0x31) % 256 else (crc <<< 1) % 256

/-- Process one input byte of `computeCRC8`: XOR the byte into the register,
then run the inner loop eight times. -/
def crc8Byte (crc b : ℕ) : ℕ :=
  (List.range 8).foldl (fun c _ => crc8Round c) (crc ^^^ b)

/-- SCD30::computeCRC8: CRC-8 with initial register 0xFF over the data
bytes, one `crc8Byte` step per byte. -/
def computeCRC8 (data : List ℕ) : ℕ :=
  data.foldl crc8Byte 0xFF

/-- Reference CRC-8 written from the words of the specification: a
bit-at-a-time CRC with initial register 0xFF, generator polynomial 0x31, no
reflection, each byte processed MSB-first after being XORed into the
register; at each of the eight bit steps the top bit of the register is
tested before the shift, the register is shifted left one bit (dropping to
eight bits), and the polynomial is XORed in when the tested bit was set. -/
def crc8BitStepSpec (c : ℕ) : ℕ :=
  let shifted := c * 2 % 256
  if 128 ≤ c % 256 then shifted ^^^ 0x31 else shifted

/-- Iterate the specification bit step. -/
def crc8BitsSpec : ℕ → ℕ → ℕ
  | 0, c => c
  | n + 1, c => crc8BitsSpec n (crc8BitStepSpec c)

/-- The full specification CRC-8: fold the per-byte processing (XOR-in, then
eight MSB-first bit steps) over the data, starting from 0xFF. -/
def crc8Spec (data : List ℕ) : ℕ :=
  data.foldl (fun c b => crc8BitsSpec 8 (c ^^^ b)) 0xFF

/-! ### Command transmission -/

/-- SCD30::sendCommand(command): write the command MSB-first; report the
ACK. -/
def sendCommand (bus : BusState) (command : ℕ) : Bool × BusState :=
  i2cWrite bus SCD30_I2C_ADDRESS [hi8 command, lo8 command]

/-- SCD30::sendCommand(command, argument): write command then argument,
both MSB-first, followed by the CRC computed over the two argument bytes;
report the ACK. -/
def sendCommandArg (bus : BusState) (command argument : ℕ) : Bool × BusState :=
  let data : List ℕ := [hi8 argument, lo8 argument]
  let crc := computeCRC8 data
  i2cWrite bus SCD30_I2C_ADDRESS ([hi8 command, lo8 command] ++ data ++ [crc])

/-- SCD30::readRegister: write the register address; on NACK return 0; then
request two bytes; if none are available return 0, else combine the two
bytes MSB-first into a uint16.  A missing second byte reads as 0xFF (the
uint8 cast of the -1 that `Wire.read` returns on an empty buffer). -/
def readRegister (bus : BusState) (registerAddress : ℕ) : ℕ × BusState :=
  let w := i2cWrite bus SCD30_I2C_ADDRESS [hi8 registerAddress, lo8 registerAddress]
  if !w.1 then (0, w.2)
  else
    let r := i2cRequest w.2 2
    if r.1 ≠ [] then
      let msb := r.1.headD 255
      let lsb := r.1.tail.headD 255
      ((msb <<< 8) % 2 ^ 16 ||| lsb, r.2)
    else (0, r.2)

/-- SCD30::dataAvailable: read the ready-status register and report whether
its value is exactly 1. -/
def dataAvailable (bus : BusState) : Bool × BusState :=
  let r := readRegister bus SCD30_GET_READY_STATUS
  (r.1 == 1, r.2)

/-! ### Configuration commands -/

/-- SCD30::beginMeasuring(ambientPressureOffset): start continuous
measurement with the given pressure offset. -/
def beginMeasuring (bus : BusState) (ambientPressureOffset : ℕ) : Bool × BusState :=
  sendCommandArg bus SCD30_START_CONTINUOUS_MEASUREMENT ambientPressureOffset

/-- SCD30::beginMeasuring(): the no-argument overload, offset 0 (pressure
compensation deactivated). -/
def beginMeasuringDefault (bus : BusState) : Bool × BusState :=
  beginMeasuring bus 0

/-- SCD30::setMeasurementInterval. -/
def setMeasurementInterval (bus : BusState) (interval : ℕ) : BusState :=
  (sendCommandArg bus SCD30_SET_MEASUREMENT_INTERVAL interval).2

/-- SCD30::setForcedRecalibrationValue: silently return without any bus
transaction when the concentration lies outside 400..2000 ppm. -/
def setForcedRecalibrationValue (bus : BusState) (concentration : ℕ) : BusState :=
  if concentration < 400 ∨ 2000 < concentration then bus
  else (sendCommandArg bus SCD30_SET_FORCED_RECALIBRATION concentration).2

/-- SCD30::setAmbientPressure: coerce the argument to 0 outside
700..1200 mBar, then always send start-continuous-measurement with it. -/
def setAmbientPressure (bus : BusState) (ambientPressure : ℕ) : BusState :=
  let p := if ambientPressure < 700 ∨ 1200 < ambientPressure then 0 else ambientPressure
  (sendCommandArg bus SCD30_START_CONTINUOUS_MEASUREMENT p).2

/-- SCD30::begin: initialize the transport; start continuous measurement
(offset 0); on ACK also set the default 2 s measurement interval and return
true; on NACK return false. -/
def begin (bus : BusState) : Bool × BusState :=
  let bus1 := wireBegin bus
  let m := beginMeasuringDefault bus1
  if m.1 then (true, setMeasurementInterval m.2 2)
  else (false, m.2)

/-! ### Measurement read -/

/-- The three uint32 accumulators of `readMeasurement`, in declaration
order. -/
structure MeasTemps where
  tempCO2 : ℕ
  tempTemperature : ℕ
  tempHumidity : ℕ
deriving DecidableEq

/-- The switch statement of the `readMeasurement` loop: bytes at offsets
0, 1, 3, 4 shift into the CO2 accumulator, 6, 7, 9, 10 into the temperature
accumulator, 12, 13, 15, 16 into the humidity accumulator, everything else
(the CRC offsets) is skipped.  The accumulators are uint32. -/
def measAccum (t : MeasTemps) (b incoming : ℕ) : MeasTemps :=
  if b = 0 ∨ b = 1 ∨ b = 3 ∨ b = 4 then
    { t with tempCO2 := (t.tempCO2 <<< 8) % 2 ^ 32 ||| incoming }
  else if b = 6 ∨ b = 7 ∨ b = 9 ∨ b = 10 then
    { t with tempTemperature := (t.tempTemperature <<< 8) % 2 ^ 32 ||| incoming }
  else if b = 12 ∨ b = 13 ∨ b = 15 ∨ b = 16 then
    { t with tempHumidity := (t.tempHumidity <<< 8) % 2 ^ 32 ||| incoming }
  else t

/-- The 18-iteration loop of `readMeasurement`: at each iteration one byte
is consumed from the receive buffer (`Wire.read`, which yields 0xFF once
the buffer is exhausted) and fed to the switch. -/
def measLoop (buf : List ℕ) : MeasTemps :=
  ((List.range 18).foldl
    (fun tb b => (measAccum tb.1 b (tb.2.headD 255), tb.2.tail))
    ((⟨0, 0, 0⟩ : MeasTemps), buf)).1

/-- SCD30::readMeasurement: write the read-measurement command; on NACK
return false with everything unchanged.  Otherwise request 18 bytes; if any
are available run the parsing loop, else the accumulators stay 0.  The
three `memcpy` calls then overwrite the cached floats with the accumulator
bit patterns unconditionally, and the function returns true. -/
def readMeasurement (s : SCD30State) (bus : BusState) : Bool × SCD30State × BusState :=
  let w := i2cWrite bus SCD30_I2C_ADDRESS
    [hi8 SCD30_READ_MEASUREMENT, lo8 SCD30_READ_MEASUREMENT]
  if !w.1 then (false, s, w.2)
  else
    let r := i2cRequest w.2 18
    let t : MeasTemps := if r.1 ≠ [] then measLoop r.1 else ⟨0, 0, 0⟩
    (true, ⟨t.tempCO2, t.tempTemperature, t.tempHumidity⟩, r.2)

/-! ### Lazy accessors -/

/-- The shared prologue of every accessor: `if (dataAvailable() == true)
readMeasurement();` (the boolean result of readMeasurement is discarded). -/
def refreshIfAvailable (s : SCD30State) (bus : BusState) : SCD30State × BusState :=
  let d := dataAvailable bus
  if d.1 then
    let m := readMeasurement s d.2
    (m.2.1, m.2.2)
  else (s, d.2)

/-- SCD30::getHumidity: refresh if available, then return the cached
humidity float. -/
def getHumidity (s : SCD30State) (bus : BusState) : Option ℚ × SCD30State × BusState :=
  let r := refreshIfAvailable s bus
  (f32ToRat r.1.humidity, r.1, r.2)

/-- SCD30::getTemperatureC: refresh if available, then return the cached
temperature float. -/
def getTemperatureC (s : SCD30State) (bus : BusState) : Option ℚ × SCD30State × BusState :=
  let r := refreshIfAvailable s bus
  (f32ToRat r.1.temperature, r.1, r.2)

/-- SCD30::getTemperatureF: refresh if available, then return
`temperature * 1.8 + 32`, computed at read time from the cached Celsius
value (float arithmetic modelled exactly over ℚ). -/
def getTemperatureF (s : SCD30State) (bus : BusState) : Option ℚ × SCD30State × BusState :=
  let r := refreshIfAvailable s bus
  ((f32ToRat r.1.temperature).map (fun t => t * 1.8 + 32), r.1, r.2)

/-- SCD30::getTemperatureK: refresh if available, then return
`temperature + 273.15`, computed at read time from the cached Celsius value
(float arithmetic modelled exactly over ℚ). -/
def getTemperatureK (s : SCD30State) (bus : BusState) : Option ℚ × SCD30State × BusState :=
  let r := refreshIfAvailable s bus
  ((f32ToRat r.1.temperature).map (fun t => t + 273.15), r.1, r.2)

/-- SCD30::getCO2: refresh if available, then return the cached CO2 float
converted to `uint16_t` (the declared return type of the member). -/
def getCO2 (s : SCD30State) (bus : BusState) : Option ℕ × SCD30State × BusState :=
  let r := refreshIfAvailable s bus
  ((f32ToRat r.1.co2).bind floatToUInt16, r.1, r.2)

/-! ### Helper lemmas -/

theorem mul256_or (x y : ℕ) (h : y < 256) : x * 256 ||| y = x * 256 + y := by
  have h2 : y < 2 ^ 8 := h
  calc x * 256 ||| y = 2 ^ 8 * x ||| y := by rw [show x * 256 = 2 ^ 8 * x by ring]
    _ = 2 ^ 8 * x + y := (Nat.mul_add_lt_is_or h2 x).symm
    _ = x * 256 + y := by ring

theorem shiftStep (t inc : ℕ) (ht : t < 2 ^ 24) (hinc : inc < 256) :
    (t <<< 8) % 4294967296 ||| inc = t * 256 + inc := by
  have h1 : t <<< 8 = t * 256 := by rw [Nat.shiftLeft_eq]
  have h2 : t * 256 % 4294967296 = t * 256 := Nat.mod_eq_of_lt (by omega)
  rw [h1, h2, mul256_or _ _ hinc]

theorem crc8Round_lt (c : ℕ) : crc8Round c < 256 := by
  unfold crc8Round
  split <;> exact Nat.mod_lt _ (by norm_num)

theorem crc8Byte_lt (c b : ℕ) : crc8Byte c b < 256 := by
  have h : crc8Byte c b =
      crc8Round ((List.range 7).foldl (fun c _ => crc8Round c) (c ^^^ b)) := by
    simp [crc8Byte, List.range_succ]
  rw [h]
  exact crc8Round_lt _

theorem foldl_crc8Byte_lt (data : List ℕ) : ∀ c, c < 256 → data.foldl crc8Byte c < 256 := by
  induction data with
  | nil => intro c h; simpa using h
  | cons d ds ih => intro c _; exact ih _ (crc8Byte_lt _ _)

theorem computeCRC8_lt (data : List ℕ) : computeCRC8 data < 256 :=
  foldl_crc8Byte_lt data 0xFF (by norm_num)

theorem xor_mod_two_pow (a b n : ℕ) : (a ^^^ b) % 2 ^ n = a % 2 ^ n ^^^ b % 2 ^ n := by
  apply Nat.eq_of_testBit_eq
  intro i
  by_cases h : i < n <;>
    simp [Nat.testBit_mod_two_pow, Nat.testBit_xor, h]

theorem crc8Round_eq_spec (c : ℕ) : crc8Round c = crc8BitStepSpec c := by
  have h := Nat.and_two_pow c 7
  rw [Nat.testBit_to_div_mod] at h
  have h7 : (2 : ℕ) ^ 7 = 128 := by norm_num
  rw [h7] at h
  have hcond : (c &&& 0x80 ≠ 0) ↔ 128 ≤ c % 256 := by
    by_cases hb : c / 128 % 2 = 1 <;> simp [hb] at h <;> simp [h] <;> omega
  simp only [crc8Round, crc8BitStepSpec]
  by_cases hc : 128 ≤ c % 256
  · rw [if_pos (hcond.mpr hc), if_pos hc, Nat.shiftLeft_eq]
    have hp : c * 2 ^ 1 = c * 2 := by norm_num
    rw [hp]
    have hx := xor_mod_two_pow (c * 2) 49 8
    norm_num at hx
    rw [hx]
  · rw [if_neg (fun hcc => hc (hcond.mp hcc)), if_neg hc, Nat.shiftLeft_eq]

theorem crc8Byte_eq_spec (c b : ℕ) : crc8Byte c b = crc8BitsSpec 8 (c ^^^ b) := by
  have h : ∀ x : ℕ, crc8BitsSpec 8 x =
      crc8BitStepSpec (crc8BitStepSpec (crc8BitStepSpec (crc8BitStepSpec
        (crc8BitStepSpec (crc8BitStepSpec (crc8BitStepSpec (crc8BitStepSpec x))))))) :=
    fun _ => rfl
  rw [h]
  simp [crc8Byte, List.range_succ, crc8Round_eq_spec]

theorem foldl_crc8_eq (l : List ℕ) :
    ∀ c, l.foldl crc8Byte c = l.foldl (fun c b => crc8BitsSpec 8 (c ^^^ b)) c := by
  induction l with
  | nil => intro c; rfl
  | cons d ds ih =>
    intro c
    simp only [List.foldl_cons, crc8Byte_eq_spec]
    exact ih _

/-! ### Claim C7 -/

/-- C7: computeCRC8 is a pure deterministic function equal to the
bit-at-a-time CRC-8 reference definition with initial register 0xFF,
generator polynomial 0x31, no reflection, MSB-first with XOR-in per byte
and conditional XOR of the polynomial when the top bit is set before each
shift; over any input it yields a 1-byte output, and it matches the
documented example vector CRC(0xBE 0xEF) = 0x92. -/
theorem C7_computeCRC8_spec :
    (∀ data : List ℕ, computeCRC8 data = crc8Spec data) ∧
    (∀ data : List ℕ, computeCRC8 data < 256) ∧
    computeCRC8 [0xBE, 0xEF] = 0x92 := by
  refine ⟨fun data => foldl_crc8_eq data 0xFF, computeCRC8_lt, by decide⟩

/-! ### Claim C4 -/

/-- C4: setForcedRecalibrationValue issues a bus command if and only if the
concentration lies in 400..2000 inclusive; outside that range it is a
silent no-op leaving the bus untouched, inside it sends the
set-forced-recalibration command with the given argument and the checksum
computed over the two argument bytes. -/
theorem C4_forcedRecalibration_range (bus : BusState) (c : ℕ) :
    ((setForcedRecalibrationValue bus c).log = bus.log ↔ (c < 400 ∨ 2000 < c)) ∧
    (c < 400 ∨ 2000 < c → setForcedRecalibrationValue bus c = bus) ∧
    (400 ≤ c → c ≤ 2000 →
      setForcedRecalibrationValue bus c =
        { bus with
            acks := bus.acks.tail,
            log := bus.log ++ [(SCD30_I2C_ADDRESS,
              [hi8 SCD30_SET_FORCED_RECALIBRATION, lo8 SCD30_SET_FORCED_RECALIBRATION,
               hi8 c, lo8 c, computeCRC8 [hi8 c, lo8 c]])] }) := by
  have hout : c < 400 ∨ 2000 < c → setForcedRecalibrationValue bus c = bus := by
    intro h
    simp [setForcedRecalibrationValue, h]
  have hin : 400 ≤ c → c ≤ 2000 →
      setForcedRecalibrationValue bus c =
        { bus with
            acks := bus.acks.tail,
            log := bus.log ++ [(SCD30_I2C_ADDRESS,
              [hi8 SCD30_SET_FORCED_RECALIBRATION, lo8 SCD30_SET_FORCED_RECALIBRATION,
               hi8 c, lo8 c, computeCRC8 [hi8 c, lo8 c]])] } := by
    intro h1 h2
    unfold setForcedRecalibrationValue
    rw [if_neg (by omega)]
    rfl
  refine ⟨⟨?_, ?_⟩, hout, hin⟩
  · intro h
    by_contra hr
    push_neg at hr
    rw [hin hr.1 hr.2] at h
    have := congrArg List.length h
    simp at this
  · intro h
    rw [hout h]

/-- Witness for C4: setForcedRecalibrationValue(1500) issues the
set-forced-recalibration command with argument 1500 and its checksum. -/
theorem C4_forcedRecalibration_witness :
    (400 : ℕ) ≤ 1500 ∧ (1500 : ℕ) ≤ 2000 ∧
    setForcedRecalibrationValue (BusState.mk false [true] [] []) 1500 =
      { BusState.mk false [true] [] [] with
          acks := (BusState.mk false [true] [] [] : BusState).acks.tail
          log := (BusState.mk false [true] [] [] : BusState).log ++ [(SCD30_I2C_ADDRESS,
            [hi8 SCD30_SET_FORCED_RECALIBRATION, lo8 SCD30_SET_FORCED_RECALIBRATION,
             hi8 1500, lo8 1500, computeCRC8 [hi8 1500, lo8 1500]])] } :=
  ⟨by decide, by decide,
   (C4_forcedRecalibration_range (BusState.mk false [true] [] []) 1500).2.2
     (by decide) (by decide)⟩

/-! ### Claim C5 -/

/-- C5: setAmbientPressure always issues the start-continuous-measurement
command; the transmitted argument is coerced to 0 outside 700..1200 mBar
inclusive and transmitted unchanged inside; in particular 600 and 1300
transmit 0 while 1000 transmits 1000. -/
theorem C5_ambientPressure_coerce (bus : BusState) (p : ℕ) :
    setAmbientPressure bus p =
      { bus with
          acks := bus.acks.tail,
          log := bus.log ++ [(SCD30_I2C_ADDRESS,
            [hi8 SCD30_START_CONTINUOUS_MEASUREMENT, lo8 SCD30_START_CONTINUOUS_MEASUREMENT,
             hi8 (if p < 700 ∨ 1200 < p then 0 else p),
             lo8 (if p < 700 ∨ 1200 < p then 0 else p),
             computeCRC8 [hi8 (if p < 700 ∨ 1200 < p then 0 else p),
                          lo8 (if p < 700 ∨ 1200 < p then 0 else p)]])] } ∧
    (setAmbientPressure bus 600).log = bus.log ++ [(SCD30_I2C_ADDRESS,
      [hi8 SCD30_START_CONTINUOUS_MEASUREMENT, lo8 SCD30_START_CONTINUOUS_MEASUREMENT,
       hi8 0, lo8 0, computeCRC8 [hi8 0, lo8 0]])] ∧
    (setAmbientPressure bus 1300).log = bus.log ++ [(SCD30_I2C_ADDRESS,
      [hi8 SCD30_START_CONTINUOUS_MEASUREMENT, lo8 SCD30_START_CONTINUOUS_MEASUREMENT,
       hi8 0, lo8 0, computeCRC8 [hi8 0, lo8 0]])] ∧
    (setAmbientPressure bus 1000).log = bus.log ++ [(SCD30_I2C_ADDRESS,
      [hi8 SCD30_START_CONTINUOUS_MEASUREMENT, lo8 SCD30_START_CONTINUOUS_MEASUREMENT,
       hi8 1000, lo8 1000, computeCRC8 [hi8 1000, lo8 1000]])] := by
  refine ⟨?_, ?_, ?_, ?_⟩
  · by_cases hp : p < 700 ∨ 1200 < p <;>
      simp [setAmbientPressure, sendCommandArg, i2cWrite, hp]
  · rfl
  · rfl
  · rfl

/-! ### Claim C6 -/

/-- C6: begin initializes the bus transport and issues the
start-continuous-measurement command with argument 0; it returns false
when that command is not acknowledged, and returns true after additionally
issuing the set-measurement-interval command with argument 2 when it is
acknowledged. -/
theorem C6_begin_spec (bus : BusState) :
    ((begin bus).2.begun = true) ∧
    (bus.acks.headD false = false →
      begin bus = (false,
        { bus with
            begun := true
            acks := bus.acks.tail
            log := bus.log ++ [(SCD30_I2C_ADDRESS,
              [hi8 SCD30_START_CONTINUOUS_MEASUREMENT, lo8 SCD30_START_CONTINUOUS_MEASUREMENT,
               hi8 0, lo8 0, computeCRC8 [hi8 0, lo8 0]])] })) ∧
    (bus.acks.headD false = true →
      begin bus = (true,
        { bus with
            begun := true
            acks := bus.acks.tail.tail
            log := bus.log ++ [(SCD30_I2C_ADDRESS,
            [hi8 SCD30_START_CONTINUOUS_MEASUREMENT, lo8 SCD30_START_CONTINUOUS_MEASUREMENT,
             hi8 0, lo8 0, computeCRC8 [hi8 0, lo8 0]]),
            (SCD30_I2C_ADDRESS,
            [hi8 SCD30_SET_MEASUREMENT_INTERVAL, lo8 SCD30_SET_MEASUREMENT_INTERVAL,
             hi8 2, lo8 2, computeCRC8 [hi8 2, lo8 2]])] })) := by
  obtain ⟨g, acks, reads, lg⟩ := bus
  cases acks with
  | nil =>
    simp [begin, wireBegin, beginMeasuringDefault, beginMeasuring, sendCommandArg,
      setMeasurementInterval, i2cWrite]
  | cons a as =>
    cases a <;>
      simp [begin, wireBegin, beginMeasuringDefault, beginMeasuring, sendCommandArg,
        setMeasurementInterval, i2cWrite]

/-- Witness for C6: with a script that ACKs both transactions, begin
returns true and puts the start command then the interval command on the
wire. -/
theorem C6_begin_witness :
    (BusState.mk false [true, true] [] []).acks.headD false = true ∧
    begin (BusState.mk false [true, true] [] []) = (true,
      { BusState.mk false [true, true] [] [] with
          begun := true
          acks := (BusState.mk false [true, true] [] []).acks.tail.tail
          log := (BusState.mk false [true, true] [] []).log ++ [(SCD30_I2C_ADDRESS,
          [hi8 SCD30_START_CONTINUOUS_MEASUREMENT, lo8 SCD30_START_CONTINUOUS_MEASUREMENT,
           hi8 0, lo8 0, computeCRC8 [hi8 0, lo8 0]]),
          (SCD30_I2C_ADDRESS,
          [hi8 SCD30_SET_MEASUREMENT_INTERVAL, lo8 SCD30_SET_MEASUREMENT_INTERVAL,
           hi8 2, lo8 2, computeCRC8 [hi8 2, lo8 2]])] }) :=
  ⟨by decide, (C6_begin_spec (BusState.mk false [true, true] [] [])).2.2 (by decide)⟩

/-! ### Claim C9 -/

theorem u16_combine (m l : ℕ) (hm : m < 256) (hl : l < 256) :
    (m <<< 8) % 2 ^ 16 ||| l = m * 256 + l := by
  have h1 : m <<< 8 = m * 256 := by rw [Nat.shiftLeft_eq]
  have h2 : m * 256 % 2 ^ 16 = m * 256 := Nat.mod_eq_of_lt (by omega)
  rw [h1, h2, mul256_or _ _ hl]

/-- C9: readRegister returns 0 when the address write is not acknowledged
or when no response bytes are available, and otherwise combines the two
response bytes MSB-first into (MSB shifted left 8) OR LSB; consequently a
returned 0 cannot be distinguished from a register whose value really is
zero (both a NACKed read and a successful read of the bytes 00 00 return
0). -/
theorem C9_readRegister_spec (bus : BusState) (address : ℕ) :
    (bus.acks.headD false = false →
      readRegister bus address = (0,
        { bus with
            acks := bus.acks.tail
            log := bus.log ++ [(SCD30_I2C_ADDRESS, [hi8 address, lo8 address])] })) ∧
    (bus.acks.headD false = true → bus.reads.headD [] = [] →
      (readRegister bus address).1 = 0) ∧
    (∀ m l rest, bus.acks.headD false = true → bus.reads.headD [] = m :: l :: rest →
      m < 256 → l < 256 → (readRegister bus address).1 = m * 256 + l) ∧
    (readRegister (BusState.mk false [false] [] []) address).1 = 0 ∧
    (readRegister (BusState.mk false [true] [[0, 0]] []) address).1 = 0 := by
  obtain ⟨g, acks, reads, lg⟩ := bus
  refine ⟨?_, ?_, ?_, ?_, ?_⟩
  · intro h
    cases acks with
    | nil => simp [readRegister, i2cWrite]
    | cons a as =>
      simp at h
      subst h
      simp [readRegister, i2cWrite]
  · intro h1 h2
    cases acks with
    | nil => simp at h1
    | cons a as =>
      simp at h1
      subst h1
      cases reads with
      | nil => simp [readRegister, i2cWrite, i2cRequest]
      | cons r rs =>
        simp at h2
        subst h2
        simp [readRegister, i2cWrite, i2cRequest]
  · intro m l rest h1 h2 hm hl
    cases acks with
    | nil => simp at h1
    | cons a as =>
      simp at h1
      subst h1
      cases reads with
      | nil => simp at h2
      | cons r rs =>
        simp at h2
        subst h2
        simp [readRegister, i2cWrite, i2cRequest, List.take, Nat.mod_eq_of_lt hm,
          Nat.mod_eq_of_lt hl]
        exact u16_combine m l hm hl
  · simp [readRegister, i2cWrite]
  · simp [readRegister, i2cWrite, i2cRequest]

/-- Witness for C9: a successful 2-byte read of 0x12 0x34 yields
0x12 * 256 + 0x34. -/
theorem C9_readRegister_witness :
    (BusState.mk false [true] [[18, 52, 86]] []).acks.headD false = true ∧
    (BusState.mk false [true] [[18, 52, 86]] []).reads.headD [] = 18 :: 52 :: [86] ∧
    (18 : ℕ) < 256 ∧ (52 : ℕ) < 256 ∧
    (readRegister (BusState.mk false [true] [[18, 52, 86]] []) SCD30_GET_READY_STATUS).1 =
      18 * 256 + 52 :=
  ⟨by decide, by decide, by decide, by decide,
   (C9_readRegister_spec (BusState.mk false [true] [[18, 52, 86]] [])
     SCD30_GET_READY_STATUS).2.2.1 18 52 [86] (by decide) (by decide) (by decide) (by decide)⟩

/-! ### Claim C3 -/

theorem readRegister_log (bus : BusState) (a : ℕ) :
    (readRegister bus a).2.log = bus.log ++ [(SCD30_I2C_ADDRESS, [hi8 a, lo8 a])] := by
  unfold readRegister i2cWrite i2cRequest
  dsimp only
  split
  · simp
  · split <;> simp

theorem dataAvailable_log (bus : BusState) :
    (dataAvailable bus).2.log = bus.log ++
      [(SCD30_I2C_ADDRESS, [hi8 SCD30_GET_READY_STATUS, lo8 SCD30_GET_READY_STATUS])] := by
  simp [dataAvailable, readRegister_log]

/-- C3: each lazy accessor checks dataAvailable, which reports true exactly
when the ready-status register read is 1.  When it reports false the
accessor returns the previously cached field, leaves the cache untouched
and issues no measurement-read transaction (the only write put on the wire
is the ready-status register read).  When it reports true the accessor
first runs readMeasurement to refresh the cache and then returns the
refreshed cached field. -/
theorem C3_lazy_accessors (s : SCD30State) (bus : BusState) :
    ((dataAvailable bus).1 = true ↔ (readRegister bus SCD30_GET_READY_STATUS).1 = 1) ∧
    ((dataAvailable bus).2.log = bus.log ++
      [(SCD30_I2C_ADDRESS, [hi8 SCD30_GET_READY_STATUS, lo8 SCD30_GET_READY_STATUS])]) ∧
    ((dataAvailable bus).1 = false →
      getCO2 s bus = ((f32ToRat s.co2).bind floatToUInt16, s, (dataAvailable bus).2) ∧
      getHumidity s bus = (f32ToRat s.humidity, s, (dataAvailable bus).2) ∧
      getTemperatureC s bus = (f32ToRat s.temperature, s, (dataAvailable bus).2) ∧
      getTemperatureF s bus =
        ((f32ToRat s.temperature).map (fun t => t * 1.8 + 32), s, (dataAvailable bus).2) ∧
      getTemperatureK s bus =
        ((f32ToRat s.temperature).map (fun t => t + 273.15), s, (dataAvailable bus).2)) ∧
    ((dataAvailable bus).1 = true →
      getCO2 s bus =
        ((f32ToRat (readMeasurement s (dataAvailable bus).2).2.1.co2).bind floatToUInt16,
         (readMeasurement s (dataAvailable bus).2).2.1,
         (readMeasurement s (dataAvailable bus).2).2.2) ∧
      getHumidity s bus =
        (f32ToRat (readMeasurement s (dataAvailable bus).2).2.1.humidity,
         (readMeasurement s (dataAvailable bus).2).2.1,
         (readMeasurement s (dataAvailable bus).2).2.2) ∧
      getTemperatureC s bus =
        (f32ToRat (readMeasurement s (dataAvailable bus).2).2.1.temperature,
         (readMeasurement s (dataAvailable bus).2).2.1,
         (readMeasurement s (dataAvailable bus).2).2.2) ∧
      getTemperatureF s bus =
        ((f32ToRat (readMeasurement s (dataAvailable bus).2).2.1.temperature).map
           (fun t => t * 1.8 + 32),
         (readMeasurement s (dataAvailable bus).2).2.1,
         (readMeasurement s (dataAvailable bus).2).2.2) ∧
      getTemperatureK s bus =
        ((f32ToRat (readMeasurement s (dataAvailable bus).2).2.1.temperature).map
           (fun t => t + 273.15),
         (readMeasurement s (dataAvailable bus).2).2.1,
         (readMeasurement s (dataAvailable bus).2).2.2)) := by
  refine ⟨by simp [dataAvailable], dataAvailable_log bus, ?_, ?_⟩
  · intro h
    refine ⟨?_, ?_, ?_, ?_, ?_⟩ <;>
      simp [getCO2, getHumidity, getTemperatureC, getTemperatureF, getTemperatureK,
        refreshIfAvailable, h]
  · intro h
    refine ⟨?_, ?_, ?_, ?_, ?_⟩ <;>
      simp [getCO2, getHumidity, getTemperatureC, getTemperatureF, getTemperatureK,
        refreshIfAvailable, h]

/-- Witness for C3: with a NACKed status read the ready check reports
false and getTemperatureC returns the previously cached value with the
cache untouched. -/
theorem C3_lazy_accessors_witness :
    (dataAvailable (BusState.mk false [false] [] [])).1 = false ∧
    getTemperatureC ⟨0x43E10000, 0xC2480000, 0x42200000⟩ (BusState.mk false [false] [] []) =
      (f32ToRat (0xC2480000 : ℕ), ⟨0x43E10000, 0xC2480000, 0x42200000⟩,
       (dataAvailable (BusState.mk false [false] [] [])).2) :=
  ⟨by decide,
   ((C3_lazy_accessors ⟨0x43E10000, 0xC2480000, 0x42200000⟩
     (BusState.mk false [false] [] [])).2.2.1 (by decide)).2.2.1⟩

/-! ### Claim C8 -/

/-- C8: the Fahrenheit and Kelvin accessors apply the unit conversion at
read time to the same cached Celsius value: over the same cache and bus
state, getTemperatureF returns getTemperatureC times 1.8 plus 32 and
getTemperatureK returns getTemperatureC plus 273.15 (for every cached
value, negative ones included), and both leave exactly the same driver
and bus state as getTemperatureC - no converted value is stored. -/
theorem C8_unit_conversions (s : SCD30State) (bus : BusState) :
    getTemperatureF s bus =
      ((getTemperatureC s bus).1.map (fun t => t * 1.8 + 32), (getTemperatureC s bus).2) ∧
    getTemperatureK s bus =
      ((getTemperatureC s bus).1.map (fun t => t + 273.15), (getTemperatureC s bus).2) :=
  ⟨rfl, rfl⟩

/-! ### Claim C1 -/

/-- C1 (amended): readMeasurement returns false only when the initial
command write is not acknowledged; when the write is acknowledged but no
response bytes are available it returns true and overwrites the cached
co2, temperature and humidity with the all-zero bit pattern (0.0f),
rather than retaining the previous cached values. -/
theorem C1_readMeasurement_no_bytes (s : SCD30State) (bus : BusState) :
    (bus.acks.headD false = false →
      readMeasurement s bus = (false, s,
        { bus with
            acks := bus.acks.tail
            log := bus.log ++ [(SCD30_I2C_ADDRESS,
              [hi8 SCD30_READ_MEASUREMENT, lo8 SCD30_READ_MEASUREMENT])] })) ∧
    (bus.acks.headD false = true → bus.reads.headD [] = [] →
      readMeasurement s bus = (true, ⟨0, 0, 0⟩,
        { bus with
            acks := bus.acks.tail
            reads := bus.reads.tail
            log := bus.log ++ [(SCD30_I2C_ADDRESS,
              [hi8 SCD30_READ_MEASUREMENT, lo8 SCD30_READ_MEASUREMENT])] })) := by
  obtain ⟨g, acks, reads, lg⟩ := bus
  constructor
  · intro h
    cases acks with
    | nil => simp [readMeasurement, i2cWrite]
    | cons a as =>
      simp at h
      subst h
      simp [readMeasurement, i2cWrite]
  · intro h1 h2
    cases acks with
    | nil => simp at h1
    | cons a as =>
      simp at h1
      subst h1
      cases reads with
      | nil => simp [readMeasurement, i2cWrite, i2cRequest]
      | cons r rs =>
        simp at h2
        subst h2
        simp [readMeasurement, i2cWrite, i2cRequest]

/-- Counterexample to C1 as stated: the write is acknowledged, no response
bytes are available, readMeasurement returns true, and the cache does NOT
retain its previous (nonzero) values - it is zeroed by the unconditional
memcpy calls. -/
theorem C1_counterexample :
    (readMeasurement ⟨0x43E10000, 0x41200000, 0x42480000⟩
      (BusState.mk false [true] [] [])).1 = true ∧
    (readMeasurement ⟨0x43E10000, 0x41200000, 0x42480000⟩
      (BusState.mk false [true] [] [])).2.1 ≠
      (⟨0x43E10000, 0x41200000, 0x42480000⟩ : SCD30State) := by
  refine ⟨rfl, by decide⟩

/-- Witness for the amended C1: concrete run of the acknowledged-write,
no-bytes-available case. -/
theorem C1_readMeasurement_witness :
    (BusState.mk false [true] [] []).acks.headD false = true ∧
    (BusState.mk false [true] [] []).reads.headD [] = [] ∧
    readMeasurement ⟨0x43E10000, 0x41200000, 0x42480000⟩ (BusState.mk false [true] [] []) =
      (true, ⟨0, 0, 0⟩,
       { BusState.mk false [true] [] [] with
           acks := (BusState.mk false [true] [] [] : BusState).acks.tail
           reads := (BusState.mk false [true] [] [] : BusState).reads.tail
           log := (BusState.mk false [true] [] [] : BusState).log ++ [(SCD30_I2C_ADDRESS,
             [hi8 SCD30_READ_MEASUREMENT, lo8 SCD30_READ_MEASUREMENT])] }) :=
  ⟨by decide, by decide,
   (C1_readMeasurement_no_bytes ⟨0x43E10000, 0x41200000, 0x42480000⟩
     (BusState.mk false [true] [] [])).2 (by decide) (by decide)⟩

/-! ### Claim C10 -/

/-- C10: getCO2 returns the cached co2 float converted, by truncation, to
a 16-bit unsigned integer - any fractional part of the decoded CO2 value
is discarded and the result fits in 16 bits - unlike getHumidity and
getTemperatureC, which return the cached float field directly. -/
theorem C10_getCO2_truncates (s : SCD30State) (bus : BusState) (q : ℚ)
    (hq : f32ToRat (refreshIfAvailable s bus).1.co2 = some q)
    (h0 : 0 ≤ q) (h1 : q < 65536) :
    (getCO2 s bus).1 = some ⌊q⌋.toNat ∧
    ((⌊q⌋.toNat : ℚ) ≤ q ∧ q < (⌊q⌋.toNat : ℚ) + 1) ∧
    ⌊q⌋.toNat < 65536 ∧
    (getHumidity s bus).1 = f32ToRat (refreshIfAvailable s bus).1.humidity ∧
    (getTemperatureC s bus).1 = f32ToRat (refreshIfAvailable s bus).1.temperature := by
  have hfl : (0 : ℤ) ≤ ⌊q⌋ := Int.le_floor.mpr (by exact_mod_cast h0)
  have hle : ((⌊q⌋ : ℤ) : ℚ) ≤ q := Int.floor_le q
  have hlt : q < ((⌊q⌋ : ℤ) : ℚ) + 1 := Int.lt_floor_add_one q
  have hcast : ((⌊q⌋.toNat : ℚ)) = ((⌊q⌋ : ℤ) : ℚ) := by
    have h2 : ((⌊q⌋.toNat : ℤ)) = ⌊q⌋ := Int.toNat_of_nonneg hfl
    exact_mod_cast congrArg (fun z : ℤ => (z : ℚ)) h2
  refine ⟨?_, ⟨?_, ?_⟩, ?_, rfl, rfl⟩
  · simp [getCO2, hq, floatToUInt16, h0, h1]
  · rw [hcast]; exact hle
  · rw [hcast]; exact hlt
  · have hflt : ⌊q⌋ < 65536 := Int.floor_lt.mpr (by exact_mod_cast h1)
    omega

/-- Witness for C10: a cache whose CO2 bit pattern decodes to 450.5 and a
bus whose status read is NACKed; getCO2 returns 450. -/
theorem C10_getCO2_witness :
    f32ToRat (refreshIfAvailable ⟨0x43E14000, 0, 0⟩
      (BusState.mk false [false] [] [])).1.co2 = some (901 / 2) ∧
    (0 : ℚ) ≤ 901 / 2 ∧ (901 / 2 : ℚ) < 65536 ∧
    (getCO2 ⟨0x43E14000, 0, 0⟩ (BusState.mk false [false] [] [])).1 =
      some ⌊(901 / 2 : ℚ)⌋.toNat := by
  have hs : (refreshIfAvailable (⟨0x43E14000, 0, 0⟩ : SCD30State)
      (BusState.mk false [false] [] [])).1 = ⟨0x43E14000, 0, 0⟩ := by decide
  have hq : f32ToRat (refreshIfAvailable (⟨0x43E14000, 0, 0⟩ : SCD30State)
      (BusState.mk false [false] [] [])).1.co2 = some (901 / 2) := by
    rw [hs]
    norm_num [f32ToRat]
  exact ⟨hq, by norm_num, by norm_num,
    (C10_getCO2_truncates ⟨0x43E14000, 0, 0⟩ (BusState.mk false [false] [] [])
      (901 / 2) hq (by norm_num) (by norm_num)).1⟩

/-! ### Claim C2 -/

theorem loop18 (b0 b1 b2 b3 b4 b5 b6 b7 b8 b9 b10 b11 b12 b13 b14 b15 b16 b17 : ℕ)
    (h0 : b0 < 256) (h1 : b1 < 256) (h3 : b3 < 256) (h4 : b4 < 256)
    (h6 : b6 < 256) (h7 : b7 < 256) (h9 : b9 < 256) (h10 : b10 < 256)
    (h12 : b12 < 256) (h13 : b13 < 256) (h15 : b15 < 256) (h16 : b16 < 256) :
    measLoop [b0, b1, b2, b3, b4, b5, b6, b7, b8, b9, b10, b11, b12, b13, b14, b15, b16, b17] =
      ⟨((b0 * 256 + b1) * 256 + b3) * 256 + b4,
       ((b6 * 256 + b7) * 256 + b9) * 256 + b10,
       ((b12 * 256 + b13) * 256 + b15) * 256 + b16⟩ := by
  simp [measLoop, List.range_succ, measAccum]
  rw [shiftStep b0 b1 (by omega) h1,
      shiftStep (b0 * 256 + b1) b3 (by omega) h3,
      shiftStep ((b0 * 256 + b1) * 256 + b3) b4 (by omega) h4,
      shiftStep b6 b7 (by omega) h7,
      shiftStep (b6 * 256 + b7) b9 (by omega) h9,
      shiftStep ((b6 * 256 + b7) * 256 + b9) b10 (by omega) h10,
      shiftStep b12 b13 (by omega) h13,
      shiftStep (b12 * 256 + b13) b15 (by omega) h15,
      shiftStep ((b12 * 256 + b13) * 256 + b15) b16 (by omega) h16]
  exact ⟨rfl, rfl, rfl⟩

/-- C2: for every 18-byte response frame (arriving after an acknowledged
command write), readMeasurement assembles the bytes at offsets 0, 1, 3, 4
in arrival order big-endian as the CO2 bit pattern, offsets 6, 7, 9, 10 as
the temperature bit pattern, and offsets 12, 13, 15, 16 as the humidity
bit pattern, stores the three patterns bit-for-bit into the cache, and
discards the bytes at all remaining offsets (the result does not depend on
them); in particular the assembled CO2 pattern of a frame carrying the
big-endian IEEE-754 encoding of 450.0 (bytes 43 E1 00 00) decodes to
exactly 450. -/
theorem C2_readMeasurement_decode (s : SCD30State) (g : Bool) (ar : List Bool)
    (rr : List (List ℕ)) (lg : List (ℕ × List ℕ))
    (b0 b1 b2 b3 b4 b5 b6 b7 b8 b9 b10 b11 b12 b13 b14 b15 b16 b17 : ℕ)
    (h0 : b0 < 256) (h1 : b1 < 256) (h3 : b3 < 256) (h4 : b4 < 256)
    (h6 : b6 < 256) (h7 : b7 < 256) (h9 : b9 < 256) (h10 : b10 < 256)
    (h12 : b12 < 256) (h13 : b13 < 256) (h15 : b15 < 256) (h16 : b16 < 256) :
    (readMeasurement s (BusState.mk g (true :: ar)
        ([b0, b1, b2, b3, b4, b5, b6, b7, b8, b9, b10,
          b11, b12, b13, b14, b15, b16, b17] :: rr) lg) =
      (true,
       ⟨((b0 * 256 + b1) * 256 + b3) * 256 + b4,
        ((b6 * 256 + b7) * 256 + b9) * 256 + b10,
        ((b12 * 256 + b13) * 256 + b15) * 256 + b16⟩,
       BusState.mk g ar rr (lg ++ [(SCD30_I2C_ADDRESS,
         [hi8 SCD30_READ_MEASUREMENT, lo8 SCD30_READ_MEASUREMENT])]))) ∧
    f32ToRat (((0x43 * 256 + 0xE1) * 256 + 0x00) * 256 + 0x00) = some 450 := by
  constructor
  · have hl := loop18 b0 b1 (b2 % 256) b3 b4 (b5 % 256) b6 b7 (b8 % 256) b9 b10
      (b11 % 256) b12 b13 (b14 % 256) b15 b16 (b17 % 256)
      h0 h1 h3 h4 h6 h7 h9 h10 h12 h13 h15 h16
    simp [readMeasurement, i2cWrite, i2cRequest, hl,
      Nat.mod_eq_of_lt h0, Nat.mod_eq_of_lt h1, Nat.mod_eq_of_lt h3, Nat.mod_eq_of_lt h4,
      Nat.mod_eq_of_lt h6, Nat.mod_eq_of_lt h7, Nat.mod_eq_of_lt h9, Nat.mod_eq_of_lt h10,
      Nat.mod_eq_of_lt h12, Nat.mod_eq_of_lt h13, Nat.mod_eq_of_lt h15, Nat.mod_eq_of_lt h16]
  · norm_num [f32ToRat]

/-- Witness for C2: a concrete frame whose CO2 field carries the bytes
43 E1 00 00 (with the real per-field CRC bytes D5 and 81 in the CRC
slots) parses to the cached CO2 bit pattern 0x43E10000. -/
theorem C2_readMeasurement_witness :
    (0x43 : ℕ) < 256 ∧ (0xE1 : ℕ) < 256 ∧ (0 : ℕ) < 256 ∧
    readMeasurement ⟨1, 2, 3⟩ (BusState.mk false (true :: [])
        ([[0x43, 0xE1, 0xD5, 0x00, 0x00, 0x81, 0x00, 0x00, 0x81,
           0x00, 0x00, 0x81, 0x00, 0x00, 0x81, 0x00, 0x00, 0x81]] ) []) =
      (true, ⟨0x43E10000, 0, 0⟩,
       BusState.mk false [] [] ([] ++ [(SCD30_I2C_ADDRESS,
         [hi8 SCD30_READ_MEASUREMENT, lo8 SCD30_READ_MEASUREMENT])])) :=
  ⟨by decide, by decide, by decide,
   (C2_readMeasurement_decode ⟨1, 2, 3⟩ false [] [] []
      0x43 0xE1 0xD5 0x00 0x00 0x81 0x00 0x00 0x81 0x00 0x00 0x81 0x00 0x00 0x81 0x00 0x00 0x81
      (by decide) (by decide) (by decide) (by decide) (by decide) (by decide)
      (by decide) (by decide) (by decide) (by decide) (by decide) (by decide)).1⟩

end SCD30
